import Mathlib

/-!
Verification development for the Kit tool-bridge repository.

Shallow embedding of:
- `backend/adk_chat_service/services/kit_connection.py` (server-side RPC
  connection manager and correlation table),
- `backend/adk_chat_service/routes/websocket.py` (connection lifecycle),
- `source/extensions/demo.chat_ui/demo/chat_ui/kit_tool_client.py`
  (remote peer: dispatch, error codes, reconnect backoff),
- `backend/adk_chat_service/services/stream_handler.py`
  (`format_tool_stream_as_ndjson`, the event multiplexer).

Machine-level details that no modelled claim depends on are represented
abstractly: WebSocket handles are natural numbers, freshly generated UUID
`chunk_id`s are omitted from output lines, and Python float delays are
modelled as rationals (doubling and `min` are exact on both).
-/

/-- A JSON value, the payload type of results and parameters. -/
inductive JsonVal where
  | null : JsonVal
  | bool : Bool → JsonVal
  | num : Int → JsonVal
  | str : String → JsonVal
  | arr : List JsonVal → JsonVal
  | obj : List (String × JsonVal) → JsonVal

/-- Exceptions raised/stored by the Python code.  `connectionError` models
`ConnectionError`, `timeoutError` models `TimeoutError`, `exception` models a
bare `Exception` (as built in `_handle_response` for error responses). -/
inductive PyExn where
  | connectionError : String → PyExn
  | timeoutError : String → PyExn
  | exception : String → PyExn
deriving DecidableEq

/-- The state of an `asyncio.Future`: unset, fulfilled with a result, or
failed with an exception.  `future.done()` means the state is not `unset`. -/
inductive FutureState where
  | unset : FutureState
  | result : JsonVal → FutureState
  | exn : PyExn → FutureState

/-- `future.done()` from the source: set to a result or an exception. -/
def FutureState.done : FutureState → Bool
  | .unset => false
  | _ => true

/-- `PendingCall` dataclass from `kit_connection.py` (lines 14-20).  The
`status_callback` closure is modelled by its presence only; invoking it does
not change manager state. -/
structure PendingCall where
  call_id : String
  tool_name : String
  future : FutureState
  has_status_callback : Bool := false

/-- A registered tool schema (`_get_tool_schemas` entries): a name, a
description and a JSON-Schema-like parameter object. -/
structure ToolSchema where
  name : String
  description : String := ""
  parameters : JsonVal := .obj []

/-- The JSON-RPC error object `{code, message}`.  Both fields are read with
`.get` in the source, so each may be absent. -/
structure ErrObj where
  code : Option Int := none
  message : Option String := none
deriving DecidableEq

/-- The typed fields the source ever reads out of a frame's `params` object:
`tools` (registration), and `call_id`/`status`/`message` (status
notifications); `args` is the opaque argument object of a tool-call request. -/
structure ParamsObj where
  tools : List ToolSchema := []
  call_id : Option String := none
  status : Option String := none
  message : Option String := none
  args : JsonVal := .obj []

/-- A wire frame.  Each field is `some` exactly when the corresponding key is
present in the JSON object (`"method" in data` etc.).  The constant
`"jsonrpc": "2.0"` member is never inspected by the source and is omitted. -/
structure Frame where
  method : Option String := none
  params : Option ParamsObj := none
  id : Option String := none
  result : Option JsonVal := none
  error : Option ErrObj := none

/-- `KitConnectionManager.__init__` state (lines 31-37).  The `asyncio.Lock`
serialises the coroutines we model as atomic steps and has no further data. -/
structure ManagerState where
  websocket : Option Nat := none
  registered_tools : List ToolSchema := []
  pending_calls : List (String × PendingCall) := []
  connected : Bool := false

namespace ManagerState

/-- `is_connected` property (lines 39-42). -/
def is_connected (st : ManagerState) : Bool :=
  st.connected && st.websocket.isSome

end ManagerState

/-- Dictionary lookup `pending_calls.get(call_id)`. -/
def findCall (cid : String) : List (String × PendingCall) → Option PendingCall
  | [] => none
  | kv :: rest => if kv.1 = cid then some kv.2 else findCall cid rest

/-- Dictionary removal `pending_calls.pop(call_id, None)`. -/
def popCall (cid : String) (l : List (String × PendingCall)) :
    List (String × PendingCall) :=
  l.filter (fun kv => kv.1 ≠ cid)

/-- Mutating the future stored under `cid` (the table holds a reference to
the same `PendingCall` object the caller awaits). -/
def resolveAt (cid : String) (fs : FutureState)
    (l : List (String × PendingCall)) : List (String × PendingCall) :=
  l.map (fun kv => if kv.1 = cid then (kv.1, { kv.2 with future := fs }) else kv)

namespace KitConnectionManager

/-- `register_connection` (lines 44-54): store the websocket handle and mark
connected.  Nothing else is touched. -/
def register_connection (ws : Nat) (st : ManagerState) : ManagerState :=
  { st with websocket := some ws, connected := true }

/-- The exception `unregister_connection` sets on every still-pending future. -/
def connLostExn : PyExn :=
  .connectionError "Kit disconnected while waiting for result"

/-- Failing one pending call on disconnect: futures that are not done get the
connection-lost exception; done futures are left alone (lines 64-68). -/
def failFuture (p : PendingCall) : PendingCall :=
  if p.future.done then p else { p with future := .exn connLostExn }

/-- `unregister_connection` (lines 56-71): clear the socket, the flag and the
tool catalogue, fail every still-pending future, clear the table.  The second
component records the final state of every future the table referenced, so
that the effect on waiting callers is observable. -/
def unregister_connection (st : ManagerState) :
    ManagerState × List (String × PendingCall) :=
  ({ websocket := none, connected := false, registered_tools := [],
     pending_calls := [] },
   st.pending_calls.map (fun kv => (kv.1, failFuture kv.2)))

/-- `register_tools` (lines 73-81): wholesale assignment of the catalogue. -/
def register_tools (tools : List ToolSchema) (st : ManagerState) : ManagerState :=
  { st with registered_tools := tools }

/-- `get_tool_schemas` (lines 83-90). -/
def get_tool_schemas (st : ManagerState) : List ToolSchema :=
  st.registered_tools

/-- `_handle_notification` (lines 178-201).  `tool.status` only invokes the
pending call's callback (no manager-state change); unknown methods only log. -/
def handle_notification (f : Frame) (st : ManagerState) : ManagerState :=
  match f.method with
  | some "kit.register" =>
      register_tools ((f.params.getD {}).tools) st
  | _ => st

/-- The error message string built at line 223:
`f"Tool error ({code}): {message}"`, with Python rendering `None` for an
absent field. -/
def toolErrorMsg (e : ErrObj) : String :=
  "Tool error (" ++ (match e.code with
                     | none => "None"
                     | some c => toString c) ++ "): " ++
    (match e.message with
     | none => "None"
     | some m => m)

/-- `_handle_response` (lines 203-229).  A falsy id (missing key or empty
string), an unknown id, or an already-resolved future each leave the state
unchanged (only a warning is logged); otherwise the matching future is set
exactly once, to an exception if the frame has an `error` member, else to the
frame's `result` (defaulting to `{}`). -/
def handle_response (f : Frame) (st : ManagerState) : ManagerState :=
  match f.id with
  | none => st
  | some cid =>
    if cid = "" then st
    else
      match findCall cid st.pending_calls with
      | none => st
      | some p =>
        if p.future.done then st
        else
          let fs : FutureState :=
            match f.error with
            | some e => .exn (.exception (toolErrorMsg e))
            | none => .result (f.result.getD (.obj []))
          { st with pending_calls := resolveAt cid fs st.pending_calls }

/-- The three routing targets of `handle_message` (lines 157-176). -/
inductive Route where
  | notification : Route
  | response : Route
  | dropped : Route
deriving DecidableEq

/-- The branch taken by `handle_message` on a parsed frame: any frame with a
`method` key is a notification; otherwise a `result` or `error` key makes it
a response; otherwise it is logged and dropped. -/
def route (f : Frame) : Route :=
  if f.method.isSome then .notification
  else if f.result.isSome || f.error.isSome then .response
  else .dropped

/-- `handle_message` on a frame that parsed as JSON (lines 170-176). -/
def handle_message (f : Frame) (st : ManagerState) : ManagerState :=
  match route f with
  | .notification => handle_notification f st
  | .response => handle_response f st
  | .dropped => st

/-- The guard at the top of `call_tool` (lines 116-117): fail immediately
with `ConnectionError("Kit is not connected")` when no peer is attached. -/
def call_tool_connect_check (st : ManagerState) : Option PyExn :=
  if st.is_connected then none
  else some (.connectionError "Kit is not connected")

/-- Registering the pending call at lines 120-128: a fresh future in the
table under the minted call id. -/
def call_tool_register (cid tool : String) (cb : Bool) (st : ManagerState) :
    ManagerState :=
  { st with pending_calls :=
      st.pending_calls ++
        [(cid, { call_id := cid, tool_name := tool, future := .unset,
                 has_status_callback := cb })] }

/-- The timeout branch of `call_tool` (lines 149-155): `asyncio.wait_for`
raised, so a `TimeoutError` is produced for the caller and the `finally`
block pops the entry from the table. -/
def call_tool_on_timeout (cid tool : String) (timeout : ℚ)
    (st : ManagerState) : ManagerState × PyExn :=
  ({ st with pending_calls := popCall cid st.pending_calls },
   .timeoutError ("Tool " ++ tool ++ " timed out after " ++ toString timeout ++ "s"))

/-- The complete timed-out `call_tool` scenario: the pending call is
registered (lines 120-128), the request frame is sent, no response arrives
before `asyncio.wait_for` expires, and the timeout branch plus the `finally`
cleanup run (lines 149-155). -/
def call_tool_timeout_run (st : ManagerState) (cid tool : String) (cb : Bool)
    (tmo : ℚ) : ManagerState × PyExn :=
  call_tool_on_timeout cid tool tmo (call_tool_register cid tool cb st)

end KitConnectionManager

namespace KitToolClient

/-- `_send_registration` (kit_tool_client.py lines 114-125): the registration
notification frame, method `"kit.register"`, params `{"tools": [...]}`, no id. -/
def send_registration_frame (tools : List ToolSchema) : Frame :=
  { method := some "kit.register",
    params := some { tools := tools },
    id := none }

/-- `_send_result` (lines 206-213): a success response frame. -/
def send_result_frame (cid : String) (result : JsonVal) : Frame :=
  { result := some result, id := some cid }

/-- `_send_error` (lines 215-225): an error response frame carrying the call
id of the request it answers. -/
def send_error_frame (cid : String) (code : Int) (message : String) : Frame :=
  { error := some { code := some code, message := some message },
    id := some cid }

/-- `_send_status` (lines 227-238): a `tool.status` notification (no id). -/
def send_status_frame (cid status message : String) : Frame :=
  { method := some "tool.status",
    params := some { call_id := some cid, status := some status,
                     message := some message } }

/-- Outcome of invoking `tool_func(**params)`: a result dict, a `TypeError`
(argument mismatch), or any other exception with its message.  This is the
"tool executor" collaborator of the bridge. -/
inductive ExecOutcome where
  | ok : JsonVal → ExecOutcome
  | typeError : String → ExecOutcome
  | exn : String → ExecOutcome

/-- `_handle_tool_call` (lines 159-199), given the registry's method names
and the executor's outcome for this invocation: first the "running" status
notification is sent, then exactly one response — `-32601` if the method is
not registered, the result on success, `-32602` on `TypeError`, `-32000`
with the failure's message on any other exception.  Every branch is handled;
no outcome escapes to the receive loop. -/
def handle_tool_call (registry : List String) (exec : ExecOutcome)
    (method : String) (cid : String) : List Frame :=
  [send_status_frame cid "running" ("Executing " ++ method ++ "...")] ++
    (if registry.contains method then
      match exec with
      | .ok r => [send_result_frame cid r]
      | .typeError m => [send_error_frame cid (-32602) ("Invalid params: " ++ m)]
      | .exn m => [send_error_frame cid (-32000) m]
    else
      [send_error_frame cid (-32601) ("Method not found: " ++ method)])

/-- The reconnect-relevant part of the client state (`__init__`
lines 20-42): configured initial and maximum delay, current delay, and the
`_running` flag.  Delays are rationals, exact for the doubling and `min`
performed on the source's floats. -/
structure BackoffState where
  reconnect_delay : ℚ
  max_reconnect_delay : ℚ
  current_delay : ℚ
  running : Bool
deriving DecidableEq

/-- State right after `start()` (lines 54-58): `_running = True` and the
current delay reset to the configured initial delay. -/
def start_state (d0 M : ℚ) : BackoffState :=
  { reconnect_delay := d0, max_reconnect_delay := M,
    current_delay := d0, running := true }

/-- `stop()` (lines 60-72): clears `_running` first, then cancels any
scheduled reconnect task and closes the socket. -/
def stop (s : BackoffState) : BackoffState :=
  { s with running := false }

/-- Successful `_connect` (line 82): the current delay is reset to the
configured initial delay. -/
def on_connect_success (s : BackoffState) : BackoffState :=
  { s with current_delay := s.reconnect_delay }

/-- A failed connection attempt followed by the scheduled reconnect firing
(`_connect` lines 94-97 and `_schedule_reconnect` lines 99-112): if
`_running` is false nothing is scheduled; otherwise the reconnect task sleeps
for the current delay and then doubles it, capped at the maximum.  Returns
the new state and the delay that was slept, `none` when no reconnect was
scheduled. -/
def on_connect_failure (s : BackoffState) : BackoffState × Option ℚ :=
  if s.running then
    ({ s with current_delay := min (s.current_delay * 2) s.max_reconnect_delay },
     some s.current_delay)
  else (s, none)

/-- The state after `n` consecutive failed attempts (each reconnect fired). -/
def after_failures (s : BackoffState) : Nat → BackoffState
  | 0 => s
  | n + 1 => (on_connect_failure (after_failures s n)).1

/-- The delay slept before reconnect attempt `n+1`, i.e. the one scheduled by
the `n+1`-st consecutive failure. -/
def nth_delay (s : BackoffState) (n : Nat) : Option ℚ :=
  (on_connect_failure (after_failures s n)).2

end KitToolClient

/-- One event consumed by `format_tool_stream_as_ndjson`
(stream_handler.py lines 117-179), as the dictionary fields the source reads:
`event.get("type", "unknown")` selects the constructor, and each constructor
carries the payload fields read for that type (`.get` defaults applied by the
consumer below).  `unknown` stands for any type string outside the five
handled ones. -/
inductive StreamEvent where
  | text_delta : String → StreamEvent
  | tool_call : Option String → Option String → JsonVal → StreamEvent
  | tool_result : Option String → Option String → JsonVal → StreamEvent
  | error : String → StreamEvent
  | endOfStream : StreamEvent
  | unknown : String → StreamEvent

/-- One NDJSON output line of `format_tool_stream_as_ndjson`: the fields the
source serialises, minus the freshly generated `chunk_id` (a UUID, which no
claim inspects) and the constant `conversation_id` passthrough. -/
structure OutLine where
  type : String
  content : Option String := none
  tool : Option (Option String) := none
  call_id : Option (Option String) := none
  params : Option JsonVal := none
  result : Option JsonVal := none
  errorMsg : Option String := none
  done : Bool
  chunk_number : Option Nat := none
  tool_call_number : Option Nat := none
  total_chunks : Option Nat := none
  total_tool_calls : Option Nat := none

namespace StreamHandler

/-- The `text_delta` output line (lines 120-129). -/
def textLine (cc : Nat) (content : String) : OutLine :=
  { type := "text_delta", content := some content, done := false,
    chunk_number := some cc }

/-- The `tool_call` output line (lines 131-142). -/
def toolCallLine (tc : Nat) (tool cid : Option String) (ps : JsonVal) : OutLine :=
  { type := "tool_call", tool := some tool, call_id := some cid,
    params := some ps, done := false, tool_call_number := some tc }

/-- The `tool_result` output line (lines 144-153). -/
def toolResultLine (cid tool : Option String) (r : JsonVal) : OutLine :=
  { type := "tool_result", call_id := some cid, tool := some tool,
    result := some r, done := false }

/-- The `error` output line (lines 155-162 and 194-200): terminal. -/
def errorLine (msg : String) : OutLine :=
  { type := "error", errorMsg := some msg, done := true }

/-- The `end` output line (lines 164-176): terminal, reports totals. -/
def endLine (cc tc : Nat) : OutLine :=
  { type := "end", content := some "", done := true,
    total_chunks := some cc, total_tool_calls := some tc }

/-- The per-event loop of `format_tool_stream_as_ndjson` (lines 117-179),
carrying the running `chunk_count` and `tool_call_count`.  A `text_delta`
increments the chunk counter, a `tool_call` the tool counter; an event of
unknown type yields no line (only a warning is logged); the loop does not
stop at `error` or `end` lines — it keeps consuming the source. -/
def eventLines (cc tc : Nat) : List StreamEvent → List OutLine
  | [] => []
  | .text_delta s :: rest => textLine (cc + 1) s :: eventLines (cc + 1) tc rest
  | .tool_call t i ps :: rest =>
      toolCallLine (tc + 1) t i ps :: eventLines cc (tc + 1) rest
  | .tool_result i t r :: rest => toolResultLine i t r :: eventLines cc tc rest
  | .error m :: rest => errorLine m :: eventLines cc tc rest
  | .endOfStream :: rest => endLine cc tc :: eventLines cc tc rest
  | .unknown _ :: rest => eventLines cc tc rest

/-- `format_tool_stream_as_ndjson` on a source that yields `events` and then
either finishes (`raised = none`) or raises an exception with message `m`
(`raised = some m`): the `except` block (lines 188-200) emits one final
synthetic error line with `done = true`. -/
def format_tool_stream (events : List StreamEvent) (raised : Option String) :
    List OutLine :=
  eventLines 0 0 events ++
    (match raised with
     | some m => [errorLine m]
     | none => [])

end StreamHandler

/-! ### Derived predicates used by the statements -/

/-- An event whose `type` string is one of the five handled ones. -/
def StreamEvent.known : StreamEvent → Bool
  | .unknown _ => false
  | _ => true

/-- An event serialised to a terminal (`done = true`) line: `error` or `end`. -/
def StreamEvent.terminal : StreamEvent → Bool
  | .error _ => true
  | .endOfStream => true
  | _ => false

/-- A known, non-terminal event (`text_delta`, `tool_call`, `tool_result`). -/
def StreamEvent.nonTerminal (e : StreamEvent) : Bool :=
  e.known && !e.terminal

/-- Number of `text_delta` events: the final value of `chunk_count`. -/
def chunkTally : List StreamEvent → Nat
  | [] => 0
  | .text_delta _ :: rest => chunkTally rest + 1
  | .tool_call _ _ _ :: rest => chunkTally rest
  | .tool_result _ _ _ :: rest => chunkTally rest
  | .error _ :: rest => chunkTally rest
  | .endOfStream :: rest => chunkTally rest
  | .unknown _ :: rest => chunkTally rest

/-- Number of `tool_call` events: the final value of `tool_call_count`. -/
def toolTally : List StreamEvent → Nat
  | [] => 0
  | .text_delta _ :: rest => toolTally rest
  | .tool_call _ _ _ :: rest => toolTally rest + 1
  | .tool_result _ _ _ :: rest => toolTally rest
  | .error _ :: rest => toolTally rest
  | .endOfStream :: rest => toolTally rest
  | .unknown _ :: rest => toolTally rest

/-- A future that has been failed with the connection-lost `ConnectionError`
set by `unregister_connection`. -/
def FutureState.connLostFailed : FutureState → Bool
  | .exn (.connectionError "Kit disconnected while waiting for result") => true
  | _ => false

/-- The payload `_handle_response` stores into the future of the matching
pending call: an exception for an `error` frame, otherwise the frame's
`result` (defaulting to `{}`). -/
def responsePayload (f : Frame) : FutureState :=
  match f.error with
  | some e => .exn (.exception (KitConnectionManager.toolErrorMsg e))
  | none => .result (f.result.getD (.obj []))

/-! ### Helper lemmas on the pending-call table -/

theorem findCall_eq_none_iff (cid : String) (l : List (String × PendingCall)) :
    findCall cid l = none ↔ ∀ kv ∈ l, kv.1 ≠ cid := by
  induction l with
  | nil => simp [findCall]
  | cons kv rest ih =>
    by_cases h : kv.1 = cid
    · simp [findCall, h]
    · simp [findCall, h, ih]

theorem findCall_resolveAt_ne (j cid : String) (fs : FutureState)
    (l : List (String × PendingCall)) (hne : j ≠ cid) :
    findCall j (resolveAt cid fs l) = findCall j l := by
  induction l with
  | nil => simp [findCall, resolveAt]
  | cons kv rest ih =>
    have hcons : resolveAt cid fs (kv :: rest)
        = (if kv.1 = cid then (kv.1, { kv.2 with future := fs }) else kv)
            :: resolveAt cid fs rest := rfl
    rw [hcons]
    by_cases h : kv.1 = cid
    · have h1 : kv.1 ≠ j := fun hc => hne (hc.symm.trans h)
      rw [if_pos h]
      show (if kv.1 = j then some { kv.2 with future := fs }
            else findCall j (resolveAt cid fs rest)) = findCall j (kv :: rest)
      rw [if_neg h1, ih]
      show findCall j rest = if kv.1 = j then some kv.2 else findCall j rest
      rw [if_neg h1]
    · rw [if_neg h]
      show (if kv.1 = j then some kv.2 else findCall j (resolveAt cid fs rest))
          = if kv.1 = j then some kv.2 else findCall j rest
      rw [ih]

theorem findCall_resolveAt_self (cid : String) (fs : FutureState)
    (l : List (String × PendingCall)) (p : PendingCall)
    (hfind : findCall cid l = some p) :
    findCall cid (resolveAt cid fs l) = some { p with future := fs } := by
  induction l with
  | nil => exact Option.noConfusion hfind
  | cons kv rest ih =>
    have hcons : resolveAt cid fs (kv :: rest)
        = (if kv.1 = cid then (kv.1, { kv.2 with future := fs }) else kv)
            :: resolveAt cid fs rest := rfl
    rw [hcons]
    by_cases h : kv.1 = cid
    · have hhead : findCall cid (kv :: rest) = some kv.2 := by
        show (if kv.1 = cid then some kv.2 else findCall cid rest) = some kv.2
        rw [if_pos h]
      have hp : kv.2 = p := Option.some.inj (hhead.symm.trans hfind)
      rw [if_pos h]
      show (if kv.1 = cid then some { kv.2 with future := fs }
            else findCall cid (resolveAt cid fs rest)) = some { p with future := fs }
      rw [if_pos h, hp]
    · have hfind2 : findCall cid rest = some p := by
        have hu : findCall cid (kv :: rest)
            = if kv.1 = cid then some kv.2 else findCall cid rest := rfl
        rw [hu, if_neg h] at hfind
        exact hfind
      rw [if_neg h]
      show (if kv.1 = cid then some kv.2 else findCall cid (resolveAt cid fs rest))
          = some { p with future := fs }
      rw [if_neg h]
      exact ih hfind2

theorem findCall_popCall_self (cid : String) (l : List (String × PendingCall)) :
    findCall cid (popCall cid l) = none := by
  induction l with
  | nil => simp [findCall, popCall]
  | cons kv rest ih =>
    by_cases h : kv.1 = cid
    · simpa [popCall, h] using ih
    · simpa [popCall, findCall, h] using ih

theorem popCall_append_of_keys (cid : String) (p : PendingCall) :
    ∀ l : List (String × PendingCall), (∀ kv ∈ l, kv.1 ≠ cid) →
      popCall cid (l ++ [(cid, p)]) = l := by
  intro l
  induction l with
  | nil => intro _; simp [popCall]
  | cons kv rest ih =>
    intro hkeys
    have h : kv.1 ≠ cid := hkeys kv (List.mem_cons_self kv rest)
    have ih2 := ih (fun kv2 hm => hkeys kv2 (List.mem_cons_of_mem kv hm))
    simp only [List.cons_append, popCall, List.filter_cons] at ih2 ⊢
    rw [if_pos (decide_eq_true h), ih2]

theorem popCall_append_fresh (cid : String) (p : PendingCall)
    (l : List (String × PendingCall)) (hfresh : findCall cid l = none) :
    popCall cid (l ++ [(cid, p)]) = l :=
  popCall_append_of_keys cid p l ((findCall_eq_none_iff cid l).1 hfresh)

/-! ### Helper lemmas on the event multiplexer -/

theorem eventLines_append (xs ys : List StreamEvent) :
    ∀ cc tc, StreamHandler.eventLines cc tc (xs ++ ys)
      = StreamHandler.eventLines cc tc xs
          ++ StreamHandler.eventLines (cc + chunkTally xs) (tc + toolTally xs) ys := by
  induction xs with
  | nil => intro cc tc; simp [StreamHandler.eventLines, chunkTally, toolTally]
  | cons e rest ih =>
    intro cc tc
    cases e with
    | text_delta s =>
        have harith : cc + 1 + chunkTally rest = cc + (chunkTally rest + 1) := by omega
        simp only [List.cons_append, StreamHandler.eventLines, chunkTally, toolTally,
          List.append_eq]
        rw [ih, harith]
    | tool_call t i ps =>
        have harith : tc + 1 + toolTally rest = tc + (toolTally rest + 1) := by omega
        simp only [List.cons_append, StreamHandler.eventLines, chunkTally, toolTally,
          List.append_eq]
        rw [ih, harith]
    | tool_result i t r =>
        simp only [List.cons_append, StreamHandler.eventLines, chunkTally, toolTally,
          List.append_eq]
        rw [ih]
    | error m =>
        simp only [List.cons_append, StreamHandler.eventLines, chunkTally, toolTally,
          List.append_eq]
        rw [ih]
    | endOfStream =>
        simp only [List.cons_append, StreamHandler.eventLines, chunkTally, toolTally,
          List.append_eq]
        rw [ih]
    | unknown t =>
        simp only [List.cons_append, StreamHandler.eventLines, chunkTally, toolTally,
          List.append_eq]
        rw [ih]

theorem eventLines_length (evts : List StreamEvent)
    (hknown : ∀ e ∈ evts, e.known = true) :
    ∀ cc tc, (StreamHandler.eventLines cc tc evts).length = evts.length := by
  induction evts with
  | nil => intro cc tc; rfl
  | cons e rest ih =>
    intro cc tc
    have hrest := fun e2 hm => hknown e2 (List.mem_cons_of_mem e hm)
    cases e with
    | text_delta s => simp [StreamHandler.eventLines, ih hrest]
    | tool_call t i ps => simp [StreamHandler.eventLines, ih hrest]
    | tool_result i t r => simp [StreamHandler.eventLines, ih hrest]
    | error m => simp [StreamHandler.eventLines, ih hrest]
    | endOfStream => simp [StreamHandler.eventLines, ih hrest]
    | unknown t =>
        exact absurd (hknown (.unknown t) (List.mem_cons_self _ _))
          (by simp [StreamEvent.known])

theorem eventLines_nonterminal_done (evts : List StreamEvent)
    (hnt : ∀ e ∈ evts, e.nonTerminal = true) :
    ∀ cc tc, ∀ l ∈ StreamHandler.eventLines cc tc evts, l.done = false := by
  induction evts with
  | nil => intro cc tc l hl; simp [StreamHandler.eventLines] at hl
  | cons e rest ih =>
    intro cc tc l hl
    have hrest := fun e2 hm => hnt e2 (List.mem_cons_of_mem e hm)
    cases e with
    | text_delta s =>
        rcases (List.mem_cons.1 hl) with h | h
        · rw [h]; rfl
        · exact ih hrest _ _ l h
    | tool_call t i ps =>
        rcases (List.mem_cons.1 hl) with h | h
        · rw [h]; rfl
        · exact ih hrest _ _ l h
    | tool_result i t r =>
        rcases (List.mem_cons.1 hl) with h | h
        · rw [h]; rfl
        · exact ih hrest _ _ l h
    | error m =>
        exact absurd (hnt (.error m) (List.mem_cons_self _ _))
          (by simp [StreamEvent.nonTerminal, StreamEvent.terminal])
    | endOfStream =>
        exact absurd (hnt .endOfStream (List.mem_cons_self _ _))
          (by simp [StreamEvent.nonTerminal, StreamEvent.terminal])
    | unknown t =>
        exact absurd (hnt (.unknown t) (List.mem_cons_self _ _))
          (by simp [StreamEvent.nonTerminal, StreamEvent.known])


/-! ### Helper lemmas on the response handler -/

theorem handle_response_unknown_id (f : Frame) (st : ManagerState) (cid : String)
    (hid : f.id = some cid) (hnone : findCall cid st.pending_calls = none) :
    KitConnectionManager.handle_response f st = st := by
  simp only [KitConnectionManager.handle_response, hid]
  by_cases hc : cid = ""
  · simp [hc]
  · simp [hc, hnone]

theorem handle_response_already_done (f : Frame) (st : ManagerState)
    (cid : String) (p : PendingCall) (hid : f.id = some cid)
    (hfind : findCall cid st.pending_calls = some p)
    (hdone : p.future.done = true) :
    KitConnectionManager.handle_response f st = st := by
  simp only [KitConnectionManager.handle_response, hid]
  by_cases hc : cid = ""
  · simp [hc]
  · simp [hc, hfind, hdone]

theorem handle_response_other_ids (f : Frame) (st : ManagerState) (j : String)
    (hne : f.id ≠ some j) :
    findCall j (KitConnectionManager.handle_response f st).pending_calls
      = findCall j st.pending_calls := by
  cases hid : f.id with
  | none => simp only [KitConnectionManager.handle_response, hid]
  | some cid =>
    have hcj : cid ≠ j := fun h => hne (by rw [hid, h])
    simp only [KitConnectionManager.handle_response, hid]
    by_cases hc : cid = ""
    · simp [hc]
    · cases hq : findCall cid st.pending_calls with
      | none => simp [hc, hq]
      | some q =>
        by_cases hqd : q.future.done = true
        · simp [hc, hq, hqd]
        · simp only [hc, if_false, hq, hqd, if_neg, Bool.false_eq_true,
            not_false_eq_true, ite_false]
          exact findCall_resolveAt_ne j cid _ _ (Ne.symm hcj)

theorem handle_response_done_stable (f : Frame) (st : ManagerState)
    (j : String) (p : PendingCall)
    (hfind : findCall j st.pending_calls = some p)
    (hdone : p.future.done = true) :
    findCall j (KitConnectionManager.handle_response f st).pending_calls
      = some p := by
  cases hid : f.id with
  | none => simp only [KitConnectionManager.handle_response, hid]; exact hfind
  | some cid =>
    simp only [KitConnectionManager.handle_response, hid]
    by_cases hc : cid = ""
    · simp [hc, hfind]
    · cases hq : findCall cid st.pending_calls with
      | none => simp [hc, hq, hfind]
      | some q =>
        by_cases hqd : q.future.done = true
        · simp [hc, hq, hqd, hfind]
        · by_cases hj : j = cid
          · exfalso
            rw [hj] at hfind
            have hpq : q = p := Option.some.inj (hq.symm.trans hfind)
            exact hqd (by rw [hpq]; exact hdone)
          · simp only [hc, if_false, hq, hqd, if_neg, Bool.false_eq_true,
              not_false_eq_true, ite_false]
            rw [findCall_resolveAt_ne j cid _ _ hj]
            exact hfind

theorem handle_response_delivers (f : Frame) (st : ManagerState)
    (cid : String) (p : PendingCall) (hid : f.id = some cid) (hc : cid ≠ "")
    (hfind : findCall cid st.pending_calls = some p)
    (hnd : p.future.done = false) :
    findCall cid (KitConnectionManager.handle_response f st).pending_calls
      = some { p with future := responsePayload f } := by
  simp only [KitConnectionManager.handle_response, hid]
  have hfs : (match f.error with
      | some e => FutureState.exn (.exception (KitConnectionManager.toolErrorMsg e))
      | none => FutureState.result (f.result.getD (.obj []))) = responsePayload f := by
    simp only [responsePayload]
  simp only [hc, if_false, hfind, hnd, Bool.false_eq_true, not_false_eq_true,
    ite_false]
  rw [hfs]
  exact findCall_resolveAt_self cid _ _ p hfind

/-! ### Helper lemma on the reconnect backoff -/

theorem after_failures_spec (d0 M : ℚ) (h0 : 0 ≤ d0) (hM : d0 ≤ M) (n : Nat) :
    KitToolClient.after_failures (KitToolClient.start_state d0 M) n
      = { reconnect_delay := d0, max_reconnect_delay := M,
          current_delay := min (d0 * 2 ^ n) M, running := true } := by
  induction n with
  | zero =>
      have hmin : min (d0 * 2 ^ 0) M = d0 := by
        rw [pow_zero, mul_one]; exact min_eq_left hM
      rw [hmin]
      rfl
  | succ n ih =>
      have hx : (0:ℚ) ≤ d0 * 2 ^ n :=
        mul_nonneg h0 (pow_nonneg (by norm_num) n)
      have hMn : (0:ℚ) ≤ M := le_trans h0 hM
      have key : min (min (d0 * 2 ^ n) M * 2) M = min (d0 * 2 ^ (n + 1)) M := by
        rcases le_total (d0 * 2 ^ n) M with hle | hge
        · rw [min_eq_left hle, pow_succ, ← mul_assoc]
        · rw [min_eq_right hge, min_eq_right (by linarith : M ≤ M * 2),
            min_eq_right (show M ≤ d0 * 2 ^ (n + 1) by
              rw [pow_succ, ← mul_assoc]; linarith)]
      simp [KitToolClient.after_failures, ih, KitToolClient.on_connect_failure, key]

/-! ### Claims about the server-side connection manager -/

/-- Claim C1, counterexample: with a previous connection (socket 1) holding a
still-pending call `call-1`, `register_connection` accepts the new socket 7
(state is connected to it) while the previous session's pending call is still
unresolved — it was not failed before the new connection was accepted. -/
theorem C1_counterexample :
    (KitConnectionManager.register_connection 7
        { websocket := some 1, registered_tools := [],
          pending_calls :=
            [("call-1", { call_id := "call-1", tool_name := "get_selection",
                          future := .unset })],
          connected := true }).connected = true ∧
    (KitConnectionManager.register_connection 7
        { websocket := some 1, registered_tools := [],
          pending_calls :=
            [("call-1", { call_id := "call-1", tool_name := "get_selection",
                          future := .unset })],
          connected := true }).websocket = some 7 ∧
    findCall "call-1"
        (KitConnectionManager.register_connection 7
          { websocket := some 1, registered_tools := [],
            pending_calls :=
              [("call-1", { call_id := "call-1", tool_name := "get_selection",
                            future := .unset })],
            connected := true }).pending_calls
      = some { call_id := "call-1", tool_name := "get_selection",
               future := .unset } ∧
    FutureState.done .unset = false :=
  ⟨rfl, rfl, rfl, rfl⟩

/-- Claim C1 as amended: `register_connection` only stores the new socket and
sets the connected flag; it never fails the previous session's pending calls
(nor clears the catalogue) — those calls are failed only when
`unregister_connection` runs, i.e. when the previous socket's endpoint loop
in `routes/websocket.py` finishes. -/
theorem C1_register_keeps_pending (ws : Nat) (st : ManagerState) :
    (KitConnectionManager.register_connection ws st).pending_calls
        = st.pending_calls ∧
    (KitConnectionManager.register_connection ws st).registered_tools
        = st.registered_tools ∧
    (KitConnectionManager.register_connection ws st).connected = true ∧
    (KitConnectionManager.register_connection ws st).websocket = some ws :=
  ⟨rfl, rfl, rfl, rfl⟩

/-- Claim C2: handling a response frame is a no-op when the frame's id is
unknown to the table or the entry is already resolved; a response never
touches any entry other than the one with its own id, never changes an
already-resolved entry, and delivers its payload exactly to the unresolved
entry carrying its id. -/
theorem C2_response_exactly_once (f : Frame) (st : ManagerState) :
    (∀ cid, f.id = some cid → findCall cid st.pending_calls = none →
        KitConnectionManager.handle_response f st = st) ∧
    (∀ cid p, f.id = some cid → findCall cid st.pending_calls = some p →
        p.future.done = true → KitConnectionManager.handle_response f st = st) ∧
    (∀ j, f.id ≠ some j →
        findCall j (KitConnectionManager.handle_response f st).pending_calls
          = findCall j st.pending_calls) ∧
    (∀ j p, findCall j st.pending_calls = some p → p.future.done = true →
        findCall j (KitConnectionManager.handle_response f st).pending_calls
          = some p) ∧
    (∀ cid p, f.id = some cid → cid ≠ "" →
        findCall cid st.pending_calls = some p → p.future.done = false →
        findCall cid (KitConnectionManager.handle_response f st).pending_calls
          = some { p with future := responsePayload f }) :=
  ⟨fun cid hid hnone => handle_response_unknown_id f st cid hid hnone,
   fun cid p hid hfind hdone =>
     handle_response_already_done f st cid p hid hfind hdone,
   fun j hne => handle_response_other_ids f st j hne,
   fun j p hfind hdone => handle_response_done_stable f st j p hfind hdone,
   fun cid p hid hc hfind hnd =>
     handle_response_delivers f st cid p hid hc hfind hnd⟩

/-- Witness for C2: a result frame for the unknown id `call-9` leaves a table
holding only `call-1` untouched, and a second response for the
already-resolved `call-1` is also a no-op. -/
theorem C2_response_exactly_once_witness :
    KitConnectionManager.handle_response
        { id := some "call-9", result := some (.str "ok") }
        { pending_calls :=
            [("call-1", { call_id := "call-1", tool_name := "t",
                          future := .unset })] }
      = { pending_calls :=
            [("call-1", { call_id := "call-1", tool_name := "t",
                          future := .unset })] } ∧
    KitConnectionManager.handle_response
        { id := some "call-1", result := some (.str "again") }
        { pending_calls :=
            [("call-1", { call_id := "call-1", tool_name := "t",
                          future := .result (.str "first") })] }
      = { pending_calls :=
            [("call-1", { call_id := "call-1", tool_name := "t",
                          future := .result (.str "first") })] } :=
  ⟨(C2_response_exactly_once _ _).1 "call-9" rfl rfl,
   (C2_response_exactly_once _ _).2.1 "call-1"
     { call_id := "call-1", tool_name := "t",
       future := .result (.str "first") } rfl rfl rfl⟩

/-- Claim C3: unregistering the connection fails exactly the K still-pending
calls with the connection-lost `ConnectionError` (an error distinguishable
from `TimeoutError`), leaves already-resolved futures untouched, clears the
tool catalogue and leaves the table empty; it is safe on an empty table.  The
hypothesis rules out entries already failed with the very same connection-lost
error, which no reachable state contains (`unregister_connection` clears the
table after failing entries). -/
theorem C3_disconnect_fails_exactly_pending (st : ManagerState)
    (hclean : st.pending_calls.all
        (fun kv => !kv.2.future.connLostFailed) = true) :
    (KitConnectionManager.unregister_connection st).1.pending_calls = [] ∧
    (KitConnectionManager.unregister_connection st).1.registered_tools = [] ∧
    (KitConnectionManager.unregister_connection st).1.connected = false ∧
    ((KitConnectionManager.unregister_connection st).2.countP
        (fun kv => kv.2.future.connLostFailed)
      = st.pending_calls.countP (fun kv => !kv.2.future.done)) ∧
    (∀ kv ∈ st.pending_calls, kv.2.future.done = false →
        (kv.1, { kv.2 with future := .exn KitConnectionManager.connLostExn })
          ∈ (KitConnectionManager.unregister_connection st).2) ∧
    (∀ kv ∈ st.pending_calls, kv.2.future.done = true →
        kv ∈ (KitConnectionManager.unregister_connection st).2) ∧
    (∀ m, KitConnectionManager.connLostExn ≠ PyExn.timeoutError m) ∧
    (st.pending_calls = [] →
        (KitConnectionManager.unregister_connection st).2 = []) := by
  have hcleanP := List.all_eq_true.1 hclean
  refine ⟨rfl, rfl, rfl, ?_, ?_, ?_, ?_, ?_⟩
  · show (st.pending_calls.map
        (fun kv => (kv.1, KitConnectionManager.failFuture kv.2))).countP
          (fun kv => kv.2.future.connLostFailed)
      = st.pending_calls.countP (fun kv => !kv.2.future.done)
    rw [List.countP_map]
    refine List.countP_congr (fun kv hm => ?_)
    have hkv : kv.2.future.connLostFailed = false := by
      have h1 := hcleanP kv hm
      cases hc : kv.2.future.connLostFailed
      · rfl
      · rw [hc] at h1; exact absurd h1 (by decide)
    by_cases hd : kv.2.future.done = true
    · simp [Function.comp, KitConnectionManager.failFuture, hd, hkv]
    · have hd2 : kv.2.future.done = false := by
        cases h : kv.2.future.done
        · rfl
        · exact absurd h hd
      simp [Function.comp, KitConnectionManager.failFuture, hd2,
        FutureState.connLostFailed, KitConnectionManager.connLostExn]
  · intro kv hm hpend
    have himg : (kv.1, KitConnectionManager.failFuture kv.2)
        ∈ (KitConnectionManager.unregister_connection st).2 :=
      List.mem_map_of_mem _ hm
    have hff : KitConnectionManager.failFuture kv.2
        = { kv.2 with future := .exn KitConnectionManager.connLostExn } := by
      simp [KitConnectionManager.failFuture, hpend]
    rw [hff] at himg
    exact himg
  · intro kv hm hdone
    have himg : (kv.1, KitConnectionManager.failFuture kv.2)
        ∈ (KitConnectionManager.unregister_connection st).2 :=
      List.mem_map_of_mem _ hm
    have hff : KitConnectionManager.failFuture kv.2 = kv.2 := by
      simp [KitConnectionManager.failFuture, hdone]
    rw [hff] at himg
    exact himg
  · intro m h
    exact PyExn.noConfusion h
  · intro h
    show (st.pending_calls.map
        (fun kv => (kv.1, KitConnectionManager.failFuture kv.2))) = []
    rw [h]
    rfl

/-- Witness for C3: a table with one pending and one already-resolved call;
exactly one call is failed with the connection-lost error and the manager
state is fully cleared. -/
theorem C3_disconnect_fails_exactly_pending_witness :
    (KitConnectionManager.unregister_connection
        { websocket := some 1,
          registered_tools := [{ name := "get_selection" }],
          pending_calls :=
            [("call-1", { call_id := "call-1", tool_name := "a",
                          future := .unset }),
             ("call-2", { call_id := "call-2", tool_name := "b",
                          future := .result (.str "ok") })],
          connected := true }).1.pending_calls = [] ∧
    (KitConnectionManager.unregister_connection
        { websocket := some 1,
          registered_tools := [{ name := "get_selection" }],
          pending_calls :=
            [("call-1", { call_id := "call-1", tool_name := "a",
                          future := .unset }),
             ("call-2", { call_id := "call-2", tool_name := "b",
                          future := .result (.str "ok") })],
          connected := true }).2.countP
        (fun kv => kv.2.future.connLostFailed) = 1 := by
  have h := C3_disconnect_fails_exactly_pending
    { websocket := some 1,
      registered_tools := [{ name := "get_selection" }],
      pending_calls :=
        [("call-1", { call_id := "call-1", tool_name := "a",
                      future := .unset }),
         ("call-2", { call_id := "call-2", tool_name := "b",
                      future := .result (.str "ok") })],
      connected := true } rfl
  exact ⟨h.1, h.2.2.2.1.trans rfl⟩

/-- Claim C4: `call_tool` fails immediately with the not-connected
`ConnectionError` when no peer is attached; when the per-call timeout fires
before a response, the caller gets exactly the `TimeoutError`, the entry is
removed from the table, and a response frame arriving later for that id
leaves the state completely unchanged (silently discarded, resolving no
other pending call).  `hfresh` is the freshness of the minted UUID call id. -/
theorem C4_timeout_then_discard (st : ManagerState) (cid tool : String)
    (cb : Bool) (tmo : ℚ)
    (hfresh : findCall cid st.pending_calls = none) :
    (st.is_connected = false →
        KitConnectionManager.call_tool_connect_check st
          = some (.connectionError "Kit is not connected")) ∧
    ((KitConnectionManager.call_tool_timeout_run st cid tool cb tmo).2
      = .timeoutError
          ("Tool " ++ tool ++ " timed out after " ++ toString tmo ++ "s")) ∧
    (∀ m, (KitConnectionManager.call_tool_timeout_run st cid tool cb tmo).2
      ≠ .connectionError m) ∧
    ((KitConnectionManager.call_tool_timeout_run st cid tool cb tmo).1.pending_calls
      = st.pending_calls) ∧
    findCall cid
        (KitConnectionManager.call_tool_timeout_run st cid tool cb tmo).1.pending_calls
      = none ∧
    (∀ f : Frame, f.id = some cid →
        KitConnectionManager.handle_response f
            (KitConnectionManager.call_tool_timeout_run st cid tool cb tmo).1
          = (KitConnectionManager.call_tool_timeout_run st cid tool cb tmo).1) := by
  have hpend : (KitConnectionManager.call_tool_timeout_run st cid tool cb tmo).1.pending_calls
      = st.pending_calls := by
    show popCall cid (st.pending_calls ++
        [(cid, { call_id := cid, tool_name := tool, future := .unset,
                 has_status_callback := cb })]) = st.pending_calls
    exact popCall_append_fresh cid _ st.pending_calls hfresh
  have hgone : findCall cid
      (KitConnectionManager.call_tool_timeout_run st cid tool cb tmo).1.pending_calls
      = none := by
    rw [hpend]; exact hfresh
  refine ⟨?_, rfl, ?_, hpend, hgone, ?_⟩
  · intro hnc
    simp [KitConnectionManager.call_tool_connect_check, hnc]
  · intro m h
    exact PyExn.noConfusion h
  · intro f hid
    exact handle_response_unknown_id f _ cid hid hgone

/-- Witness for C4: on a disconnected, empty manager, the connect check fails
with the not-connected error, and the timed-out call `call-7` leaves an empty
table on which a late response for `call-7` is a no-op. -/
theorem C4_timeout_then_discard_witness :
    KitConnectionManager.call_tool_connect_check {}
      = some (.connectionError "Kit is not connected") ∧
    (KitConnectionManager.call_tool_timeout_run {} "call-7" "get_selection"
        false 30).2
      = .timeoutError "Tool get_selection timed out after 30s" ∧
    KitConnectionManager.handle_response { id := some "call-7" }
        (KitConnectionManager.call_tool_timeout_run {} "call-7" "get_selection"
          false 30).1
      = (KitConnectionManager.call_tool_timeout_run {} "call-7" "get_selection"
          false 30).1 := by
  have h := C4_timeout_then_discard {} "call-7" "get_selection" false 30 rfl
  exact ⟨h.1 rfl, h.2.1.trans (by rfl), h.2.2.2.2.2 { id := some "call-7" } rfl⟩

/-- Claim C10: on the server, any frame with a `method` key — even one also
carrying an `id` — is routed to the notification handler, never to the
response path; only frames without `method` but with `result` or `error` are
routed as responses; frames with none of the three keys are dropped with the
state unchanged. -/
theorem C10_method_key_routing (f : Frame) (st : ManagerState) :
    (f.method.isSome = true →
        KitConnectionManager.route f = .notification ∧
        KitConnectionManager.handle_message f st
          = KitConnectionManager.handle_notification f st) ∧
    (KitConnectionManager.route f = .response ↔
        f.method = none ∧ (f.result.isSome = true ∨ f.error.isSome = true)) ∧
    ((f.method = none ∧ (f.result.isSome = true ∨ f.error.isSome = true)) →
        KitConnectionManager.handle_message f st
          = KitConnectionManager.handle_response f st) ∧
    (f.method = none → f.result = none → f.error = none →
        KitConnectionManager.route f = .dropped ∧
        KitConnectionManager.handle_message f st = st) := by
  refine ⟨?_, ?_, ?_, ?_⟩
  · intro hm
    have hroute : KitConnectionManager.route f = .notification := by
      simp [KitConnectionManager.route, hm]
    exact ⟨hroute, by simp [KitConnectionManager.handle_message, hroute]⟩
  · constructor
    · intro hr
      by_cases hm : f.method.isSome = true
      · exfalso
        have : KitConnectionManager.route f = .notification := by
          simp [KitConnectionManager.route, hm]
        rw [this] at hr
        exact KitConnectionManager.Route.noConfusion hr
      · have hmn : f.method = none := Option.not_isSome_iff_eq_none.1 hm
        refine ⟨hmn, ?_⟩
        by_cases hre : (f.result.isSome || f.error.isSome) = true
        · rcases Bool.or_eq_true_iff.1 hre with h | h
          · exact Or.inl h
          · exact Or.inr h
        · exfalso
          have hr1 : f.result.isSome = false := by
            cases h : f.result.isSome
            · rfl
            · exact absurd (Bool.or_eq_true_iff.2 (Or.inl h)) hre
          have he1 : f.error.isSome = false := by
            cases h : f.error.isSome
            · rfl
            · exact absurd (Bool.or_eq_true_iff.2 (Or.inr h)) hre
          have hm2 : f.method.isSome = false := by rw [hmn]; rfl
          have hd : KitConnectionManager.route f = .dropped := by
            simp [KitConnectionManager.route, hm2, hr1, he1]
          rw [hd] at hr
          exact KitConnectionManager.Route.noConfusion hr
    · rintro ⟨hmn, hre⟩
      have hm : f.method.isSome = false := by rw [hmn]; rfl
      have hor : (f.result.isSome || f.error.isSome) = true :=
        Bool.or_eq_true_iff.2 hre
      simp [KitConnectionManager.route, hm, hor]
  · rintro ⟨hmn, hre⟩
    have hm : f.method.isSome = false := by rw [hmn]; rfl
    have hor : (f.result.isSome || f.error.isSome) = true :=
      Bool.or_eq_true_iff.2 hre
    have hroute : KitConnectionManager.route f = .response := by
      simp [KitConnectionManager.route, hm, hor]
    simp [KitConnectionManager.handle_message, hroute]
  · intro hmn hrn hen
    have hroute : KitConnectionManager.route f = .dropped := by
      simp [KitConnectionManager.route, hmn, hrn, hen]
    exact ⟨hroute, by simp [KitConnectionManager.handle_message, hroute]⟩

/-- Witness for C10: a frame carrying both `method` and `id` is routed as a
notification; a pure result frame is routed as a response; an empty frame is
dropped. -/
theorem C10_method_key_routing_witness :
    KitConnectionManager.route { method := some "tool.status", id := some "x" }
      = .notification ∧
    KitConnectionManager.route { result := some (.str "ok"), id := some "x" }
      = .response ∧
    KitConnectionManager.handle_message { id := some "x" } {} = {} :=
  ⟨((C10_method_key_routing
      { method := some "tool.status", id := some "x" } {}).1 rfl).1,
   (C10_method_key_routing { result := some (.str "ok"), id := some "x" }
      {}).2.1.2 ⟨rfl, Or.inl rfl⟩,
   ((C10_method_key_routing { id := some "x" } {}).2.2.2 rfl rfl rfl).2⟩

/-! ### Claims about the remote peer -/

/-- Claim C5: after `start()`, the delays slept before successive reconnect
attempts under consecutive failures are `min (d0 * 2 ^ n) M` — a doubling
sequence from the configured initial delay `d0`, capped at the configured
maximum `M`; a successful connect immediately resets the current delay to the
initial value; and once `stop()` has run, no reconnect is ever scheduled. -/
theorem C5_reconnect_backoff (d0 M : ℚ) (h0 : 0 ≤ d0) (hM : d0 ≤ M)
    (n : Nat) (s : KitToolClient.BackoffState) :
    KitToolClient.nth_delay (KitToolClient.start_state d0 M) n
      = some (min (d0 * 2 ^ n) M) ∧
    (KitToolClient.on_connect_success s).current_delay = s.reconnect_delay ∧
    KitToolClient.on_connect_failure (KitToolClient.stop s)
      = (KitToolClient.stop s, none) := by
  refine ⟨?_, rfl, ?_⟩
  · show (KitToolClient.on_connect_failure
        (KitToolClient.after_failures (KitToolClient.start_state d0 M) n)).2
      = some (min (d0 * 2 ^ n) M)
    rw [after_failures_spec d0 M h0 hM n]
    rfl
  · show (if (KitToolClient.stop s).running then _ else _) = _
    simp [KitToolClient.stop, KitToolClient.on_connect_failure]

/-- Witness for C5 with the configured defaults `reconnect_delay = 2.0`,
`max_reconnect_delay = 30.0`: the first reconnect sleeps the initial delay. -/
theorem C5_reconnect_backoff_witness :
    KitToolClient.nth_delay (KitToolClient.start_state 2 30) 0
      = some (min ((2:ℚ) * 2 ^ 0) 30) ∧
    KitToolClient.on_connect_failure
        (KitToolClient.stop (KitToolClient.start_state 2 30))
      = (KitToolClient.stop (KitToolClient.start_state 2 30), none) := by
  have h := C5_reconnect_backoff 2 30 (by norm_num) (by norm_num) 0
    (KitToolClient.start_state 2 30)
  exact ⟨h.1, h.2.2⟩

/-- Claim C6: for an inbound tool-call request on the peer, an unregistered
method is answered with an error *response* (it carries the request's id and
no method, so it is not a notification) with code `-32601`; a `TypeError`
from the tool yields code `-32602` with an "Invalid params" message; any
other failure yields code `-32000` carrying the failure's own message; and in
every case — including success — the handler returns exactly one response
frame and every error path is handled, so a single tool failure never escapes
to crash the receive loop. -/
theorem C6_peer_error_codes (registry : List String) (exec : KitToolClient.ExecOutcome)
    (method cid : String) :
    (registry.contains method = false →
        KitToolClient.handle_tool_call registry exec method cid
          = [KitToolClient.send_status_frame cid "running"
               ("Executing " ++ method ++ "..."),
             KitToolClient.send_error_frame cid (-32601)
               ("Method not found: " ++ method)]) ∧
    (∀ m, registry.contains method = true → exec = .typeError m →
        KitToolClient.handle_tool_call registry exec method cid
          = [KitToolClient.send_status_frame cid "running"
               ("Executing " ++ method ++ "..."),
             KitToolClient.send_error_frame cid (-32602)
               ("Invalid params: " ++ m)]) ∧
    (∀ m, registry.contains method = true → exec = .exn m →
        KitToolClient.handle_tool_call registry exec method cid
          = [KitToolClient.send_status_frame cid "running"
               ("Executing " ++ method ++ "..."),
             KitToolClient.send_error_frame cid (-32000) m]) ∧
    (∀ code msg, (KitToolClient.send_error_frame cid code msg).id = some cid ∧
        (KitToolClient.send_error_frame cid code msg).method = none) ∧
    ((KitToolClient.handle_tool_call registry exec method cid).countP
        (fun fr => fr.id.isSome) = 1) := by
  refine ⟨?_, ?_, ?_, fun code msg => ⟨rfl, rfl⟩, ?_⟩
  · intro hno
    have hno2 : method ∉ registry := by simpa using hno
    simp [KitToolClient.handle_tool_call, hno2]
  · intro m hyes hexec
    have hyes2 : method ∈ registry := by simpa using hyes
    simp [KitToolClient.handle_tool_call, hyes2, hexec]
  · intro m hyes hexec
    have hyes2 : method ∈ registry := by simpa using hyes
    simp [KitToolClient.handle_tool_call, hyes2, hexec]
  · by_cases hreg : method ∈ registry
    · cases exec with
      | ok r =>
          simp [KitToolClient.handle_tool_call, hreg, KitToolClient.send_status_frame,
            KitToolClient.send_result_frame, List.countP_cons]
      | typeError m =>
          simp [KitToolClient.handle_tool_call, hreg, KitToolClient.send_status_frame,
            KitToolClient.send_error_frame, List.countP_cons]
      | exn m =>
          simp [KitToolClient.handle_tool_call, hreg, KitToolClient.send_status_frame,
            KitToolClient.send_error_frame, List.countP_cons]
    · simp [KitToolClient.handle_tool_call, hreg, KitToolClient.send_status_frame,
        KitToolClient.send_error_frame, List.countP_cons]

/-- Witness for C6 with the real registry of the extension: calling the
unregistered method `fly_to_prim` produces the status notification followed
by a `-32601` error response carrying the same call id;  a `TypeError` on
the registered `create_prim` produces `-32602`. -/
theorem C6_peer_error_codes_witness :
    KitToolClient.handle_tool_call
        ["raycast_from_camera", "get_selection", "get_prim_info",
         "get_camera_info", "create_prim", "list_all_prims"]
        (.ok (.obj [])) "fly_to_prim" "call-3"
      = [KitToolClient.send_status_frame "call-3" "running"
           "Executing fly_to_prim...",
         KitToolClient.send_error_frame "call-3" (-32601)
           "Method not found: fly_to_prim"] ∧
    KitToolClient.handle_tool_call
        ["raycast_from_camera", "get_selection", "get_prim_info",
         "get_camera_info", "create_prim", "list_all_prims"]
        (.typeError "unexpected keyword argument") "create_prim" "call-4"
      = [KitToolClient.send_status_frame "call-4" "running"
           "Executing create_prim...",
         KitToolClient.send_error_frame "call-4" (-32602)
           "Invalid params: unexpected keyword argument"] :=
  ⟨(C6_peer_error_codes _ _ "fly_to_prim" "call-3").1 rfl,
   (C6_peer_error_codes _ _ "create_prim" "call-4").2.1
     "unexpected keyword argument" rfl rfl⟩

/-- Claim C8, counterexample: the registration notification actually sent by
the peer uses the wire method `"kit.register"`, not `"tool.register"`; and a
notification with method `"tool.register"` is not recognized by the server —
it does not update the catalogue. -/
theorem C8_counterexample :
    (KitToolClient.send_registration_frame [{ name := "get_selection" }]).method
      = some "kit.register" ∧
    some "kit.register" ≠ some "tool.register" ∧
    KitConnectionManager.handle_message
        { method := some "tool.register",
          params := some { tools := [{ name := "get_selection" }] } } {}
      = {} ∧
    KitConnectionManager.get_tool_schemas
        (KitConnectionManager.handle_message
          { method := some "tool.register",
            params := some { tools := [{ name := "get_selection" }] } } {})
      = [] :=
  ⟨rfl, by decide, rfl, rfl⟩

/-- Claim C8 as amended: the registration notification uses wire method
`"kit.register"` (not `"tool.register"`) with params `{"tools": [...]}` and
no id; the server recognizes exactly that method, and each registration
replaces the catalogue wholesale — after registering tool sets A then B,
only B is visible to catalogue queries. -/
theorem C8_registration_replaces_catalogue (tools A B : List ToolSchema)
    (st : ManagerState) :
    (KitToolClient.send_registration_frame tools).method
      = some "kit.register" ∧
    (KitToolClient.send_registration_frame tools).params
      = some { tools := tools } ∧
    (KitToolClient.send_registration_frame tools).id = none ∧
    KitConnectionManager.get_tool_schemas
        (KitConnectionManager.handle_message
          (KitToolClient.send_registration_frame B)
          (KitConnectionManager.handle_message
            (KitToolClient.send_registration_frame A) st)) = B :=
  ⟨rfl, rfl, rfl, rfl⟩

/-! ### Claims about the event multiplexer -/

/-- Claim C7, counterexample: an event of unknown type produces no output
line at all (1 input event, 0 output lines), so the output line count does
not equal the input event count for every input sequence; and for the input
`[text_delta "a"]` the last output line has `done = false`, so the last line
does not always carry `done = true`. -/
theorem C7_counterexample :
    (StreamHandler.format_tool_stream [StreamEvent.unknown "bogus"] none).length
      = 0 ∧
    [StreamEvent.unknown "bogus"].length = 1 ∧
    StreamHandler.format_tool_stream [StreamEvent.text_delta "a"] none
      = [StreamHandler.textLine 1 "a"] ∧
    (StreamHandler.textLine 1 "a").done = false :=
  ⟨rfl, rfl, rfl, rfl⟩

/-- Claim C7 as amended: the multiplexer emits exactly one output line per
input event of known type (events of unknown type are dropped with only a
logged warning), the last output line has `done = true` whenever the input
ends with a terminal (`end`/`error`) event, and for the input
`[text_delta "a", text_delta "b", end]` the output is exactly three lines
with chunk numbers 1 and 2 and an `end` line reporting `total_chunks = 2`
and `total_tool_calls = 0`. -/
theorem C7_one_line_per_known_event (evts : List StreamEvent)
    (hknown : evts.all StreamEvent.known = true) :
    (StreamHandler.format_tool_stream evts none).length = evts.length ∧
    (∀ e : StreamEvent, e.terminal = true →
        ∃ last, (StreamHandler.format_tool_stream (evts ++ [e]) none).getLast?
            = some last ∧ last.done = true) ∧
    (StreamHandler.format_tool_stream
        [.text_delta "a", .text_delta "b", .endOfStream] none
      = [StreamHandler.textLine 1 "a", StreamHandler.textLine 2 "b",
         StreamHandler.endLine 2 0] ∧
     (StreamHandler.textLine 1 "a").chunk_number = some 1 ∧
     (StreamHandler.textLine 2 "b").chunk_number = some 2 ∧
     (StreamHandler.endLine 2 0).done = true ∧
     (StreamHandler.endLine 2 0).total_chunks = some 2 ∧
     (StreamHandler.endLine 2 0).total_tool_calls = some 0) := by
  have hknownP := List.all_eq_true.1 hknown
  refine ⟨?_, ?_, rfl, rfl, rfl, rfl, rfl, rfl⟩
  · show (StreamHandler.eventLines 0 0 evts ++ []).length = evts.length
    rw [List.append_nil]
    exact eventLines_length evts hknownP 0 0
  · intro e he
    show ∃ last, (StreamHandler.eventLines 0 0 (evts ++ [e]) ++ []).getLast?
        = some last ∧ last.done = true
    rw [List.append_nil, eventLines_append]
    cases e with
    | error m =>
        have hsingle : StreamHandler.eventLines (0 + chunkTally evts)
            (0 + toolTally evts) [StreamEvent.error m]
            = [StreamHandler.errorLine m] := rfl
        rw [hsingle]
        exact ⟨StreamHandler.errorLine m, by rw [List.getLast?_concat], rfl⟩
    | endOfStream =>
        have hsingle : StreamHandler.eventLines (0 + chunkTally evts)
            (0 + toolTally evts) [StreamEvent.endOfStream]
            = [StreamHandler.endLine (0 + chunkTally evts) (0 + toolTally evts)] := rfl
        rw [hsingle]
        exact ⟨StreamHandler.endLine (0 + chunkTally evts) (0 + toolTally evts),
          by rw [List.getLast?_concat], rfl⟩
    | text_delta s => exact absurd he (by simp [StreamEvent.terminal])
    | tool_call t i ps => exact absurd he (by simp [StreamEvent.terminal])
    | tool_result i t r => exact absurd he (by simp [StreamEvent.terminal])
    | unknown t => exact absurd he (by simp [StreamEvent.terminal])

/-- Witness for C7 at the spec's own example input. -/
theorem C7_one_line_per_known_event_witness :
    (StreamHandler.format_tool_stream
        [StreamEvent.text_delta "a", StreamEvent.text_delta "b",
         StreamEvent.endOfStream] none).length = 3 ∧
    StreamHandler.format_tool_stream
        [StreamEvent.text_delta "a", StreamEvent.text_delta "b",
         StreamEvent.endOfStream] none
      = [StreamHandler.textLine 1 "a", StreamHandler.textLine 2 "b",
         StreamHandler.endLine 2 0] := by
  have h := C7_one_line_per_known_event
    [StreamEvent.text_delta "a", StreamEvent.text_delta "b",
     StreamEvent.endOfStream] rfl
  exact ⟨h.1, h.2.2.1⟩

/-- Claim C9, counterexample: the loop does not stop after a terminal line —
for the input `[end, text_delta "a"]` the multiplexer emits a `done = true`
`end` line and then another line after it, so a terminal line is not always
last. -/
theorem C9_counterexample :
    StreamHandler.format_tool_stream
        [StreamEvent.endOfStream, StreamEvent.text_delta "a"] none
      = [StreamHandler.endLine 0 0, StreamHandler.textLine 1 "a"] ∧
    (StreamHandler.endLine 0 0).done = true ∧
    (StreamHandler.textLine 1 "a").done = false :=
  ⟨rfl, rfl, rfl⟩

/-- Claim C9 as amended: for input sequences that contain no terminal or
unknown event before the end — i.e. a run of known non-terminal events
followed either by one final `end`/`error` event or by the upstream raising —
the output stream ends exactly once with a `done = true` line of type `end`
or `error`, no line follows it, and every earlier line has `done = false`; in
the raising case that final line is the one synthetic error line emitted by
the handler's `except` block. -/
theorem C9_stream_ends_once (evts : List StreamEvent)
    (hnt : evts.all StreamEvent.nonTerminal = true)
    (tail : Option StreamEvent) (raised : Option String)
    (hterm : (∃ e, tail = some e ∧ e.terminal = true ∧ raised = none) ∨
             (tail = none ∧ ∃ m, raised = some m)) :
    ∃ last,
      (StreamHandler.format_tool_stream (evts ++ tail.toList) raised).getLast?
          = some last ∧
      last.done = true ∧
      (last.type = "end" ∨ last.type = "error") ∧
      ∀ l ∈ (StreamHandler.format_tool_stream (evts ++ tail.toList)
               raised).dropLast,
        l.done = false := by
  have hntP := List.all_eq_true.1 hnt
  have hprefix := eventLines_nonterminal_done evts hntP
  rcases hterm with ⟨e, htail, hterme, hraise⟩ | ⟨htail, m, hraise⟩
  · subst htail
    subst hraise
    cases e with
    | error msg =>
        have hout : StreamHandler.format_tool_stream
            (evts ++ (some (StreamEvent.error msg)).toList) none
            = StreamHandler.eventLines 0 0 evts
                ++ [StreamHandler.errorLine msg] := by
          show StreamHandler.eventLines 0 0 (evts ++ [StreamEvent.error msg])
              ++ [] = _
          rw [List.append_nil, eventLines_append]
          rfl
        rw [hout]
        refine ⟨StreamHandler.errorLine msg, by rw [List.getLast?_concat],
          rfl, Or.inr rfl, ?_⟩
        intro l hl
        rw [List.dropLast_concat] at hl
        exact hprefix 0 0 l hl
    | endOfStream =>
        have hout : StreamHandler.format_tool_stream
            (evts ++ (some StreamEvent.endOfStream).toList) none
            = StreamHandler.eventLines 0 0 evts
                ++ [StreamHandler.endLine (0 + chunkTally evts)
                      (0 + toolTally evts)] := by
          show StreamHandler.eventLines 0 0 (evts ++ [StreamEvent.endOfStream])
              ++ [] = _
          rw [List.append_nil, eventLines_append]
          rfl
        rw [hout]
        refine ⟨StreamHandler.endLine (0 + chunkTally evts) (0 + toolTally evts),
          by rw [List.getLast?_concat], rfl, Or.inl rfl, ?_⟩
        intro l hl
        rw [List.dropLast_concat] at hl
        exact hprefix 0 0 l hl
    | text_delta s => exact absurd hterme (by simp [StreamEvent.terminal])
    | tool_call t i ps => exact absurd hterme (by simp [StreamEvent.terminal])
    | tool_result i t r => exact absurd hterme (by simp [StreamEvent.terminal])
    | unknown t => exact absurd hterme (by simp [StreamEvent.terminal])
  · subst htail
    subst hraise
    have hout : StreamHandler.format_tool_stream (evts ++ none.toList) (some m)
        = StreamHandler.eventLines 0 0 evts
            ++ [StreamHandler.errorLine m] := by
      show StreamHandler.eventLines 0 0 (evts ++ [])
          ++ [StreamHandler.errorLine m] = _
      rw [List.append_nil]
    rw [hout]
    refine ⟨StreamHandler.errorLine m, by rw [List.getLast?_concat],
      rfl, Or.inr rfl, ?_⟩
    intro l hl
    rw [List.dropLast_concat] at hl
    exact hprefix 0 0 l hl

/-- Witness for C9: one text delta followed by a normal `end`. -/
theorem C9_stream_ends_once_witness :
    ∃ last,
      (StreamHandler.format_tool_stream
          ([StreamEvent.text_delta "x"] ++ (some StreamEvent.endOfStream).toList)
          none).getLast? = some last ∧
      last.done = true ∧
      (last.type = "end" ∨ last.type = "error") ∧
      ∀ l ∈ (StreamHandler.format_tool_stream
               ([StreamEvent.text_delta "x"]
                 ++ (some StreamEvent.endOfStream).toList) none).dropLast,
        l.done = false :=
  C9_stream_ends_once [StreamEvent.text_delta "x"] rfl
    (some StreamEvent.endOfStream) none
    (Or.inl ⟨StreamEvent.endOfStream, rfl, rfl, rfl⟩)
